import Mathlib

/-!
Shallow embedding of the mcp-phi-base discovery/validation worker pipeline
(src/mcp-phi-base/workers/discovery/discovery_worker.py and
src/mcp-phi-base/workers/validation/validation_worker.py).

Equations (Python strings) are lists of characters.  The JSON message body
handed to a worker is modelled by the structure `Msg`, one `Option` field per
dictionary key the workers read or write (`none` means the key is absent;
reading an absent key with `data[k]` is a Python `KeyError`, modelled by
`Except.error`, while `data.get(k, d)` is modelled with `Option.getD`).
The RabbitMQ side effects of handling one delivery are modelled as the
ordered list of broker calls the handler performs (`publish`, `ack`,
`nack`), and the PostgreSQL table `validated_equations` as a map from
equation to row.  External nondeterminism (`np.random.random()`, the
Redis-derived phase-lock coherence, `datetime.utcnow()`) enters as explicit
parameters of the functions that consume it.
-/

namespace PhiPipeline

/-- A Python string, as the list of its characters. -/
abbrev Equation := List Char

/-- discovery_worker.py line 29: `PSI = 0.618033988749894`, the float literal
used in the `confidence > PSI` comparisons, as an exact rational. -/
def PSI : ℚ := 0.618033988749894

/-- Phase tag strings of discovery_worker.py lines 52-57. -/
def pastPhase : String := "past"

def presentPhase : String := "present"

def futurePhase : String := "future"

/-- Discovery worker roles (discovery_worker.py lines 52-56). -/
def patternRecognizerRole : String := "pattern_recognizer"

def equationGeneratorRole : String := "equation_generator"

def phaseOptimizerRole : String := "phase_optimizer"

/-- Validation worker roles (validation_worker.py lines 115-120). -/
def theoremCheckerRole : String := "theorem_checker"

def numericalValidatorRole : String := "numerical_validator"

def symbolicVerifierRole : String := "symbolic_verifier"

/-- Routing keys published by `_route_discovery` (discovery_worker.py
lines 262-267). -/
def routePresentEquation : String := "discovery.present.equation"

def routeFutureOptimize : String := "discovery.future.optimize"

def routeValidationRequest : String := "validation.request"

/-- A JSON message body: one `Option` field per dictionary key read or
written anywhere in the two workers.  `none` = key absent. -/
structure Msg where
  equation : Option Equation := none
  phase : Option String := none
  patterns : Option (List String) := none
  derivedEquations : Option (List Equation) := none
  confidence : Option ℚ := none
  timestamp : Option String := none
  worker : Option String := none
  betti : Option (ℕ × ℕ × ℕ) := none
  phaseLock : Option ℚ := none
  implications : Option (List String) := none
  optimized : Option Bool := none
  validationType : Option String := none
  valid : Option Bool := none
  checks : Option (Bool × Bool × Bool) := none
  testResults : Option (List (String × Bool)) := none
  precision : Option String := none
  symbolicForm : Option Equation := none
  deriving Repr, DecidableEq

/-- A message body with every key absent, for building concrete inputs. -/
def emptyMsg : Msg := {}

/-- The observable RabbitMQ calls a message handler makes, in order. -/
inductive BrokerOp where
  | publish (routingKey : String) (message : Msg)
  | ack
  | nack
  deriving Repr, DecidableEq

/-- `True` for the `basic_ack` / `basic_nack` calls, `False` for publishes. -/
def ack_or_nack : BrokerOp → Bool
  | BrokerOp.publish _ _ => false
  | BrokerOp.ack => true
  | BrokerOp.nack => true

/-- discovery_worker.py lines 120-125, `compute_betti_vector`:
`b0 = equation.count('=') + 1`, `b1 = equation.count('(') // 2`,
`b2 = equation.count('∫')` (Python `str.count` of a single character is the
number of its occurrences; `//` is floor division, `Nat` division here). -/
def compute_betti_vector (equation : Equation) : ℕ × ℕ × ℕ :=
  (equation.count '=' + 1, equation.count '(' / 2, equation.count '∫')

/-- discovery_worker.py line 153: `chi = betti[0] - betti[1] + betti[2]`,
computed in `ℤ` since Python ints do not truncate the subtraction. -/
def euler_char (equation : Equation) : ℤ :=
  let b := compute_betti_vector equation
  (b.1 : ℤ) - (b.2.1 : ℤ) + (b.2.2 : ℤ)

/-- discovery_worker.py line 156: the topology gate branch `if chi > 1`. -/
def topology_gate_rejects (equation : Equation) : Bool :=
  decide (1 < euler_char equation)

/-- discovery_worker.py lines 50-57, `_determine_phase`: the dictionary
lookup `phases.get(worker_type, "present")`. -/
def determine_phase (wt : String) : String :=
  if wt = patternRecognizerRole then pastPhase
  else if wt = equationGeneratorRole then presentPhase
  else if wt = phaseOptimizerRole then futurePhase
  else presentPhase

/-- discovery_worker.py line 106: the queue binding pattern
`f'discovery.{self.phase}.*'` for a discovery worker of the given type. -/
def discovery_binding (wt : String) : String :=
  ("discovery.") ++ determine_phase wt ++ (".*")

/-- Split a routing key or binding pattern into its `.`-separated words,
as the AMQP topic exchange does. -/
def split_dots : List Char → List (List Char)
  | [] => [[]]
  | c :: cs =>
    let rest := split_dots cs
    if c = '.' then [] :: rest
    else
      match rest with
      | [] => [[c]]
      | w :: ws => (c :: w) :: ws

/-- The words of a routing key string. -/
def key_words (k : String) : List (List Char) := split_dots k.toList

/-- AMQP topic matching of a binding pattern against a routing key, word by
word; `*` matches exactly one word (`#` is not used by this repository). -/
def topic_match : List (List Char) → List (List Char) → Bool
  | [], [] => true
  | p :: ps, w :: ws => (p == [('*')] || p == w) && topic_match ps ws
  | _, _ => false

/-- Lowercasing of `equation.lower()` (discovery_worker.py line 188),
modelled per character; the substring being searched for is ASCII. -/
def lowerChars (e : Equation) : Equation := e.map Char.toLower

/-- The characters of the substring `'phi'`. -/
def phiSub : List Char := ("phi").toList

/-- discovery_worker.py lines 186-193: the pattern tags `_recognize_patterns`
derives from the equation text, in append order. -/
def detected_patterns (equation : Equation) : List String :=
  (if equation.contains 'φ' || decide (phiSub <:+: lowerChars equation) then
    [("golden_ratio")] else [])
  ++ (if decide (("∇²").toList <:+: equation) || decide (("d²/dx²").toList <:+: equation) then
    [("laplacian")] else [])
  ++ (if equation.contains '∫' then [("integral")] else [])

/-- discovery_worker.py lines 182-201, `_recognize_patterns`:
`data['equation']` raises on an absent key; the returned dictionary is
`{**data, 'patterns': patterns, 'phase': 'past', 'timestamp': ...,
'worker': worker_type}` — the patterns key is overwritten with the freshly
detected list, not merged with the incoming one. -/
def recognize_patterns (wt : String) (data : Msg) (now : String) : Except Unit Msg :=
  match data.equation with
  | none => Except.error ()
  | some eq =>
    Except.ok { data with
      patterns := some (detected_patterns eq),
      phase := some pastPhase,
      timestamp := some now,
      worker := some wt }

/-- The two derived equations appended for the `golden_ratio` pattern
(discovery_worker.py lines 210-211). -/
def goldenDerived : List Equation := [("φ² = φ + 1").toList, ("φ = (1 + √5)/2").toList]

/-- discovery_worker.py lines 203-219, `_generate_equations`:
`patterns = data.get('patterns', [])`; the result sets
`'phase': 'present'` and `'confidence': 0.8 + np.random.random() * 0.2`,
with the random draw `r ∈ [0,1)` passed in explicitly. -/
def generate_equations (wt : String) (data : Msg) (r : ℚ) : Msg :=
  let patterns := data.patterns.getD []
  let derived := if ("golden_ratio" : String) ∈ patterns then goldenDerived else []
  { data with
    derivedEquations := some derived,
    phase := some presentPhase,
    confidence := some (4/5 + r * (1/5)),
    worker := some wt }

/-- discovery_worker.py lines 221-238, `_optimize_phase`: the coherence is
read from Redis by `check_phase_lock`, so it enters as a parameter;
implications are added when `data.get('confidence', 0) > PSI`. -/
def optimize_phase (wt : String) (data : Msg) (coherence : ℚ) : Msg :=
  let implications :=
    if PSI < data.confidence.getD 0 then [("validates_golden_structure")] else []
  { data with
    phaseLock := some coherence,
    implications := some implications,
    phase := some futurePhase,
    optimized := some true,
    worker := some wt }

/-- discovery_worker.py lines 161-167: the `if/elif` role dispatch, which has
no `else`; an unrecognized `worker_type` leaves `result` unassigned, so the
later use of `result` raises (an `UnboundLocalError`), modelled as
`Except.error`. -/
def dispatch_discovery (wt : String) (data : Msg) (now : String) (r coherence : ℚ) :
    Except Unit Msg :=
  if wt = patternRecognizerRole then recognize_patterns wt data now
  else if wt = equationGeneratorRole then Except.ok (generate_equations wt data r)
  else if wt = phaseOptimizerRole then Except.ok (optimize_phase wt data coherence)
  else Except.error ()

/-- discovery_worker.py lines 240-257, `_update_shared_state`: when
`result.get('confidence', 0) > PSI` the Redis hash update reads
`result['equation']` and `result['timestamp']`, each a `KeyError` if absent
(the `'betti' in result` branch only runs when the key is present, so it
cannot raise). -/
def update_shared_state (result : Msg) : Except Unit Unit :=
  if PSI < result.confidence.getD 0 then
    match result.equation, result.timestamp with
    | some _, some _ => Except.ok ()
    | _, _ => Except.error ()
  else Except.ok ()

/-- discovery_worker.py lines 259-267, `_route_discovery`: the routing key
chosen from `result['phase']` (a `KeyError` if absent). -/
def route_key (result : Msg) : Except Unit String :=
  match result.phase with
  | none => Except.error ()
  | some p =>
    Except.ok
      (if p = pastPhase then routePresentEquation
       else if p = presentPhase then routeFutureOptimize
       else routeValidationRequest)

/-- discovery_worker.py lines 143-180, `process_discovery`: the whole handler
body is wrapped in `try/except Exception`, whose handler issues a single
`basic_nack`; the success path publishes the enriched result and then issues
a single `basic_ack`.  `body = none` models a `json.loads` failure.  The
returned list is the ordered sequence of broker calls. -/
def process_discovery (wt : String) (body : Option Msg) (now : String) (r coherence : ℚ) :
    List BrokerOp :=
  match body with
  | none => [BrokerOp.nack]
  | some data =>
    match data.equation with
    | none => [BrokerOp.nack]
    | some eq =>
      if topology_gate_rejects eq then [BrokerOp.nack]
      else
        match dispatch_discovery wt data now r coherence with
        | Except.error _ => [BrokerOp.nack]
        | Except.ok result =>
          match update_shared_state result with
          | Except.error _ => [BrokerOp.nack]
          | Except.ok _ =>
            match route_key result with
            | Except.error _ => [BrokerOp.nack]
            | Except.ok key => [BrokerOp.publish key result, BrokerOp.ack]

/-- validation_worker.py lines 219-235, `_is_well_formed`: the running
parenthesis counter, decremented/incremented per character, aborting as soon
as it goes negative. -/
def paren_scan : Equation → ℤ → Bool
  | [], n => decide (n = 0)
  | c :: cs, n =>
    let m := if c = '(' then n + 1 else if c = ')' then n - 1 else n
    if m < 0 then false else paren_scan cs m

/-- validation_worker.py lines 219-235: `_is_well_formed` returns `False`
when the equation is empty or has no `'='`, else runs the counter scan. -/
def is_well_formed (equation : Equation) : Bool :=
  if equation = [] ∨ ¬ ('=' ∈ equation) then false else paren_scan equation 0

/-- validation_worker.py lines 237-240, `_check_dimensions`: a placeholder
that always returns `True`. -/
def check_dimensions (_ : Equation) : Bool := true

/-- Validation type strings (validation_worker.py lines 152, 178, 212). -/
def theoremType : String := "theorem"

def numericalType : String := "numerical"

def symbolicType : String := "symbolic"

/-- validation_worker.py lines 136-157, `_check_theorem`: the three checks
(`well_formed`, `dimensionally_consistent`, `mathematically_valid` — the
last a placeholder `True`); `valid = all(checks.values())` and
`confidence = sum(checks.values()) / len(checks)` (booleans summed as 0/1,
divided by 3 as an exact rational in place of the Python float). -/
def check_theorem (data : Msg) (now : String) : Except Unit Msg :=
  match data.equation with
  | none => Except.error ()
  | some eq =>
    let c := (is_well_formed eq, check_dimensions eq, true)
    Except.ok { data with
      validationType := some theoremType,
      valid := some (c.1 && c.2.1 && c.2.2),
      confidence := some (((c.1.toNat + c.2.1.toNat + c.2.2.toNat : ℕ) : ℚ) / 3),
      checks := some c,
      timestamp := some now }

/-- The numerator of validation_worker.py line 32: `PHI` is the 57-decimal
literal `1.618033988749894848204586834365638117720309179805762862135`,
represented exactly as `phiScaled / 10 ^ 57`. -/
def phiScaled : ℤ := 1618033988749894848204586834365638117720309179805762862135

/-- The scale `10 ^ 57` of the decimal literal `PHI`. -/
def phiDenom : ℤ := 10 ^ 57

/-- validation_worker.py lines 169-170: the golden ratio test
`abs(float(PHI**2 - PHI - 1)) < 1e-10`, evaluated exactly on the rational
value of the literal.  (The source computes at 50 decimal places with mpmath
and converts to a double; its rounding error is below 1e-49, ten orders of
magnitude under the 1e-10 tolerance, so the boolean agrees with the exact
computation.)  With `PHI = phiScaled / phiDenom`, the inequality
`|PHI² - PHI - 1| < 10⁻¹⁰` scales to the integer comparison below. -/
def phi_identity_test : Bool :=
  decide ((phiScaled * phiScaled - phiScaled * phiDenom - phiDenom * phiDenom).natAbs * 10 ^ 10
    < (phiDenom * phiDenom).natAbs)

/-- validation_worker.py lines 159-184, `_validate_numerical`: a test list
that gets the `phi_identity` entry when the equation contains `'φ'` or the
substring `'phi'` (no lowercasing here, unlike the discovery worker);
`valid = all(...) if test_results else True`; `confidence = 1.0 if valid
else 0.5`; `precision = str(mp.dps) = "50"`. -/
def numerical_tests (e : Equation) : List (String × Bool) :=
  if e.contains 'φ' || decide (phiSub <:+: e) then
    [(("phi_identity"), phi_identity_test)]
  else []

/-- validation_worker.py line 173: `valid = all(result[1] for result in
test_results) if test_results else True`. -/
def numerical_valid (ts : List (String × Bool)) : Bool :=
  if ts = [] then true else ts.all (fun t => t.2)

def validate_numerical (data : Msg) (now : String) : Except Unit Msg :=
  match data.equation with
  | none => Except.error ()
  | some eq =>
    Except.ok { data with
      validationType := some numericalType,
      valid := some (numerical_valid (numerical_tests eq)),
      confidence := some (if numerical_valid (numerical_tests eq) then (1 : ℚ) else 1/2),
      precision := some ("50"),
      testResults := some (numerical_tests eq),
      timestamp := some now }

/-- validation_worker.py lines 186-217, `_verify_symbolic`:
`data['equation']` is read before the `try` block; inside it, when the
equation contains `'='` the placeholder pass sets `valid = True,
confidence = 0.9`, otherwise `valid = False, confidence = 0.0`; nothing in
the modelled body can raise, and the `except` clause maps any failure to
`valid = False, confidence = 0.0` anyway. -/
def verify_symbolic (data : Msg) (now : String) : Except Unit Msg :=
  match data.equation with
  | none => Except.error ()
  | some eq =>
    Except.ok { data with
      validationType := some symbolicType,
      valid := some (decide ('=' ∈ eq)),
      confidence := some (if '=' ∈ eq then (9 : ℚ)/10 else 0),
      symbolicForm := some eq,
      timestamp := some now }

/-- validation_worker.py lines 242-256, `_update_validation_state`: the
Redis hash write reads `result['equation']` (in the key), `result['valid']`,
`result['confidence']` and `result['timestamp']`, each a `KeyError` if the
key is absent; the counter increments cannot fail. -/
def update_validation_state (result : Msg) : Except Unit Unit :=
  match result.equation, result.valid, result.confidence, result.timestamp with
  | some _, some _, some _, some _ => Except.ok ()
  | _, _, _, _ => Except.error ()

/-- One row of the `validated_equations` table (validation_worker.py
lines 264-271): `confidence`, `validation_type` and the `metadata` document
(the JSON-serialized verdict). -/
structure DBRow where
  confidence : ℚ
  validation_type : String
  metadata : Msg
  deriving Repr, DecidableEq

/-- The `validated_equations` table, keyed by its unique `equation` column. -/
abbrev DB := Equation → Option DBRow

/-- The upsert of validation_worker.py lines 264-272: `INSERT ...
ON CONFLICT (equation) DO UPDATE SET confidence =
GREATEST(validated_equations.confidence, EXCLUDED.confidence), metadata =
EXCLUDED.metadata, updated_at = NOW()` — on conflict only `confidence`
(as the max) and `metadata` change; `validation_type` keeps its stored
value. -/
def upsert_validated (db : DB) (e : Equation) (c : ℚ) (vt : String) (meta : Msg) : DB :=
  fun x =>
    if x = e then
      match db e with
      | none => some { confidence := c, validation_type := vt, metadata := meta }
      | some row =>
        some { confidence := max row.confidence c,
               validation_type := row.validation_type,
               metadata := meta }
    else db x

/-- validation_worker.py lines 258-287, `_store_validated_equation`: reads
`result['equation']`, `result['confidence']`, `result['validation_type']`
and runs the upsert; its own `try/except` catches any failure and rolls
back, leaving the table unchanged, so the function is total. -/
def store_validated_equation (db : DB) (result : Msg) : DB :=
  match result.equation, result.confidence, result.validationType with
  | some e, some c, some vt => upsert_validated db e c vt result
  | _, _, _ => db

/-- validation_worker.py lines 115-120: the `if/elif` role dispatch with no
`else`; an unrecognized `worker_type` leaves `result` unassigned and the
later use raises, modelled as `Except.error`. -/
def dispatch_validation (wt : String) (data : Msg) (now : String) : Except Unit Msg :=
  if wt = theoremCheckerRole then check_theorem data now
  else if wt = numericalValidatorRole then validate_numerical data now
  else if wt = symbolicVerifierRole then verify_symbolic data now
  else Except.error ()

/-- validation_worker.py lines 104-134, `process_validation`: the handler
body is wrapped in `try/except Exception` ending in a single `basic_nack`;
on success the verdict is stored (`_store_validated_equation` only when
`result['valid']` is truthy) and a single `basic_ack` is issued.  Returns
the ordered broker calls together with the table after the delivery. -/
def process_validation (wt : String) (db : DB) (body : Option Msg) (now : String) :
    List BrokerOp × DB :=
  match body with
  | none => ([BrokerOp.nack], db)
  | some data =>
    match dispatch_validation wt data now with
    | Except.error _ => ([BrokerOp.nack], db)
    | Except.ok result =>
      match update_validation_state result with
      | Except.error _ => ([BrokerOp.nack], db)
      | Except.ok _ =>
        match result.valid with
        | none => ([BrokerOp.nack], db)
        | some v =>
          ([BrokerOp.ack], if v then store_validated_equation db result else db)

/-- discovery_worker.py line 29 as a real number, for the phase-lock
computation. -/
noncomputable def psiR : ℝ := 0.618033988749894

/-- `np.std`: the population standard deviation
`sqrt(mean((x - mean(x))²))` of a list of reals. -/
noncomputable def np_std (xs : List ℝ) : ℝ :=
  Real.sqrt (((xs.map (fun x => (x - xs.sum / xs.length) ^ 2)).sum) / xs.length)

/-- discovery_worker.py lines 127-141, `check_phase_lock`: the list of live
`phase:*` values read from Redis enters as a parameter; an empty list
returns `0.0`, else `1.0 - min(np.std(phases) / PSI, 1.0)`. -/
noncomputable def check_phase_lock (phases : List ℝ) : ℝ :=
  if phases = [] then 0 else 1 - min (np_std phases / psiR) 1

/-- Claim C1: for every equation string `e` the Topology Gate computes
`b0 = count '=' + 1`, `b1 = count '(' / 2`, `b2 = count '∫'` and
`χ = b0 - b1 + b2`, and the gate branch of the discovery handler fires
exactly when `χ > 1`, negatively acknowledging the message; in particular
`"x = 1"` yields `[2,0,0]`, `χ = 2`, and is rejected. -/
theorem c1_topology_gate_rejection :
    (∀ e : Equation,
        compute_betti_vector e = (e.count '=' + 1, e.count '(' / 2, e.count '∫')
        ∧ (topology_gate_rejects e = true ↔
            1 < ((e.count '=' + 1 : ℕ) : ℤ) - ((e.count '(' / 2 : ℕ) : ℤ)
              + ((e.count '∫' : ℕ) : ℤ)))
    ∧ (∀ (wt : String) (data : Msg) (e : Equation) (now : String) (r coh : ℚ),
        data.equation = some e → 1 < euler_char e →
        process_discovery wt (some data) now r coh = [BrokerOp.nack])
    ∧ compute_betti_vector (("x = 1").toList) = (2, 0, 0)
    ∧ euler_char (("x = 1").toList) = 2
    ∧ process_discovery patternRecognizerRole
        (some { emptyMsg with equation := some (("x = 1").toList) }) ("t") 0 0
      = [BrokerOp.nack] := by
  refine ⟨fun e => ⟨rfl, ?_⟩, ?_, by decide, by decide, by decide⟩
  · simp [topology_gate_rejects, euler_char, compute_betti_vector]
  · intro wt data e now r coh he hchi
    have hg : topology_gate_rejects e = true := by
      simp [topology_gate_rejects]; exact hchi
    simp [process_discovery, he, hg]

/-- Witness for C1 at the concrete equation `"x = 1"`. -/
theorem c1_topology_gate_rejection_witness :
    process_discovery equationGeneratorRole
        (some { emptyMsg with equation := some (("x = 1").toList) }) ("t") 0 0
      = [BrokerOp.nack] :=
  c1_topology_gate_rejection.2.1 equationGeneratorRole
    { emptyMsg with equation := some (("x = 1").toList) }
    (("x = 1").toList) ("t") 0 0 rfl (by decide)

/-- Claim C2: two upserts for the same (initially absent) equation leave
`confidence = max c₁ c₂`; for an existing row an upsert stores
`max existing incoming`, so the stored confidence never decreases, while
`metadata` is replaced by the latest verdict; and
`_store_validated_equation` performs exactly this upsert with the verdict
message's own fields. -/
theorem c2_confidence_max_upsert :
    (∀ (db : DB) (e : Equation) (c₁ c₂ : ℚ) (vt₁ vt₂ : String) (m₁ m₂ : Msg),
        db e = none →
        upsert_validated (upsert_validated db e c₁ vt₁ m₁) e c₂ vt₂ m₂ e
          = some { confidence := max c₁ c₂, validation_type := vt₁, metadata := m₂ })
    ∧ (∀ (db : DB) (e : Equation) (c : ℚ) (vt : String) (m : Msg) (row : DBRow),
        db e = some row →
        upsert_validated db e c vt m e
          = some { confidence := max row.confidence c,
                   validation_type := row.validation_type, metadata := m })
    ∧ (∀ (db : DB) (e : Equation) (c : ℚ) (vt : String) (m : Msg) (row row' : DBRow),
        db e = some row → upsert_validated db e c vt m e = some row' →
        row.confidence ≤ row'.confidence ∧ row'.metadata = m)
    ∧ (∀ (db : DB) (result : Msg) (e : Equation) (c : ℚ) (vt : String),
        result.equation = some e → result.confidence = some c →
        result.validationType = some vt →
        store_validated_equation db result = upsert_validated db e c vt result) := by
  refine ⟨?_, ?_, ?_, ?_⟩
  · intro db e c₁ c₂ vt₁ vt₂ m₁ m₂ h
    simp [upsert_validated, h]
  · intro db e c vt m row h
    simp [upsert_validated, h]
  · intro db e c vt m row row' h h'
    simp [upsert_validated, h] at h'
    subst h'
    exact ⟨le_max_left _ _, rfl⟩
  · intro db result e c vt h₁ h₂ h₃
    simp [store_validated_equation, h₁, h₂, h₃]

/-- Witness for C2: two concrete upserts into the empty table. -/
theorem c2_confidence_max_upsert_witness :
    upsert_validated
        (upsert_validated (fun _ => none) (("x = 1").toList) (1/2) theoremType emptyMsg)
        (("x = 1").toList) (1/4) symbolicType emptyMsg (("x = 1").toList)
      = some { confidence := max (1/2) (1/4), validation_type := theoremType,
               metadata := emptyMsg } :=
  c2_confidence_max_upsert.1 (fun _ => none) (("x = 1").toList) (1/2) (1/4)
    theoremType symbolicType emptyMsg emptyMsg rfl

/-- Claim C8: the phase-lock coherence `1 - min(np.std(phases) / ψ, 1)` lies
in `[0, 1]` for every list of live phase values, and is exactly `0` when
there are none. -/
theorem c8_phase_lock_coherence_clamped :
    (∀ phases : List ℝ,
        0 ≤ check_phase_lock phases ∧ check_phase_lock phases ≤ 1)
    ∧ check_phase_lock [] = 0 := by
  constructor
  · intro phases
    unfold check_phase_lock
    split
    · norm_num
    · have hstd : 0 ≤ np_std phases := by
        unfold np_std; exact Real.sqrt_nonneg _
      have hpsi : (0 : ℝ) < psiR := by norm_num [psiR]
      have hdiv : 0 ≤ np_std phases / psiR := div_nonneg hstd hpsi.le
      have hmin_le : min (np_std phases / psiR) 1 ≤ 1 := min_le_right _ _
      have hmin_ge : 0 ≤ min (np_std phases / psiR) 1 := le_min hdiv (by norm_num)
      constructor <;> linarith
  · simp [check_phase_lock]

/-- One scan step on `'('`: the counter increases, never aborting when it
starts non-negative. -/
lemma paren_scan_open (cs : Equation) (n : ℤ) (hn : 0 ≤ n) :
    paren_scan ('(' :: cs) n = paren_scan cs (n + 1) := by
  show (if (if ('(' : Char) = '(' then n + 1 else if ('(' : Char) = ')' then n - 1 else n) < 0
      then false
      else paren_scan cs (if ('(' : Char) = '(' then n + 1 else if ('(' : Char) = ')' then n - 1 else n))
    = paren_scan cs (n + 1)
  rw [if_pos rfl, if_neg (by omega)]

/-- One scan step on `')'`: the counter decreases, aborting when it would
go negative. -/
lemma paren_scan_close (cs : Equation) (n : ℤ) :
    paren_scan (')' :: cs) n = if n - 1 < 0 then false else paren_scan cs (n - 1) := by
  have h1 : (if (')' : Char) = '(' then n + 1 else if (')' : Char) = ')' then n - 1 else n)
      = n - 1 := by
    rw [if_neg (show ¬ ((')' : Char) = '(') by decide), if_pos rfl]
  show (if (if (')' : Char) = '(' then n + 1 else if (')' : Char) = ')' then n - 1 else n) < 0
      then false
      else paren_scan cs (if (')' : Char) = '(' then n + 1 else if (')' : Char) = ')' then n - 1 else n))
    = (if n - 1 < 0 then false else paren_scan cs (n - 1))
  rw [h1]

/-- One scan step on any other character: the counter is unchanged. -/
lemma paren_scan_other (c : Char) (cs : Equation) (n : ℤ) (h1 : c ≠ '(') (h2 : c ≠ ')')
    (hn : 0 ≤ n) :
    paren_scan (c :: cs) n = paren_scan cs n := by
  show (if (if c = '(' then n + 1 else if c = ')' then n - 1 else n) < 0
      then false
      else paren_scan cs (if c = '(' then n + 1 else if c = ')' then n - 1 else n))
    = paren_scan cs n
  rw [if_neg h1, if_neg h2, if_neg (by omega)]

/-- The running-counter scan of `_is_well_formed`, characterized by prefix
counts: starting from `n ≥ 0`, it succeeds iff no prefix drives the counter
`n + #'(' - #')'` negative and the full count ends at zero. -/
lemma paren_scan_iff_counts :
    ∀ (e : Equation) (n : ℤ), 0 ≤ n →
      (paren_scan e n = true ↔
        ((∀ p : Equation, p <+: e → ((p.count ')' : ℤ) ≤ n + (p.count '(' : ℤ))) ∧
          n + (e.count '(' : ℤ) = (e.count ')' : ℤ))) := by
  intro e
  induction e with
  | nil =>
    intro n hn
    simp only [paren_scan, decide_eq_true_eq, List.prefix_nil, List.count_nil,
      Nat.cast_zero, add_zero]
    constructor
    · rintro rfl
      exact ⟨by rintro p rfl; simp, rfl⟩
    · rintro ⟨-, h2⟩
      omega
  | cons c cs ih =>
    intro n hn
    by_cases h1 : c = '('
    · subst h1
      rw [paren_scan_open cs n hn, ih (n + 1) (by omega)]
      constructor
      · rintro ⟨ha, hb⟩
        refine ⟨?_, ?_⟩
        · intro p hp
          rcases List.prefix_cons_iff.mp hp with rfl | ⟨t, rfl, ht⟩
          · simpa using hn
          · have h := ha t ht
            rw [List.count_cons_self, List.count_cons_of_ne (by decide)]
            push_cast
            omega
        · rw [List.count_cons_self, List.count_cons_of_ne (by decide)]
          push_cast
          omega
      · rintro ⟨ha, hb⟩
        refine ⟨?_, ?_⟩
        · intro p hp
          have h := ha ('(' :: p) (List.cons_prefix_cons.mpr ⟨rfl, hp⟩)
          rw [List.count_cons_self, List.count_cons_of_ne (by decide)] at h
          push_cast at h ⊢
          omega
        · rw [List.count_cons_self, List.count_cons_of_ne (by decide)] at hb
          push_cast at hb ⊢
          omega
    · by_cases h2 : c = ')'
      · subst h2
        rw [paren_scan_close cs n]
        by_cases h0 : n - 1 < 0
        · rw [if_pos h0]
          simp only [Bool.false_eq_true, false_iff, not_and]
          intro ha
          have h := ha [')'] (List.cons_prefix_cons.mpr ⟨rfl, List.nil_prefix⟩)
          simp only [List.count_cons_self, List.count_nil,
            List.count_cons_of_ne (by decide : '(' ≠ ')')] at h
          push_cast at h
          omega
        · rw [if_neg h0, ih (n - 1) (by omega)]
          constructor
          · rintro ⟨ha, hb⟩
            refine ⟨?_, ?_⟩
            · intro p hp
              rcases List.prefix_cons_iff.mp hp with rfl | ⟨t, rfl, ht⟩
              · simpa using hn
              · have h := ha t ht
                rw [List.count_cons_self, List.count_cons_of_ne (by decide)]
                push_cast
                omega
            · rw [List.count_cons_self, List.count_cons_of_ne (by decide)]
              push_cast
              omega
          · rintro ⟨ha, hb⟩
            refine ⟨?_, ?_⟩
            · intro p hp
              have h := ha (')' :: p) (List.cons_prefix_cons.mpr ⟨rfl, hp⟩)
              rw [List.count_cons_self, List.count_cons_of_ne (by decide)] at h
              push_cast at h ⊢
              omega
            · rw [List.count_cons_self, List.count_cons_of_ne (by decide)] at hb
              push_cast at hb ⊢
              omega
      · rw [paren_scan_other c cs n h1 h2 hn, ih n hn]
        have hcount1 : ((c :: cs).count '(' : ℤ) = (cs.count '(' : ℤ) := by
          rw [List.count_cons_of_ne (Ne.symm h1)]
        have hcount2 : ((c :: cs).count ')' : ℤ) = (cs.count ')' : ℤ) := by
          rw [List.count_cons_of_ne (Ne.symm h2)]
        constructor
        · rintro ⟨ha, hb⟩
          refine ⟨?_, by omega⟩
          intro p hp
          rcases List.prefix_cons_iff.mp hp with rfl | ⟨t, rfl, ht⟩
          · simpa using hn
          · have h := ha t ht
            rw [List.count_cons_of_ne (Ne.symm h1), List.count_cons_of_ne (Ne.symm h2)]
            omega
        · rintro ⟨ha, hb⟩
          refine ⟨?_, by omega⟩
          intro p hp
          have h := ha (c :: p) (List.cons_prefix_cons.mpr ⟨rfl, hp⟩)
          rw [List.count_cons_of_ne (Ne.symm h1), List.count_cons_of_ne (Ne.symm h2)] at h
          omega

/-- Claim C5: the theorem checker's verdict is `valid = well_formed ∧ the
two placeholder checks`, where `well_formed` means non-empty, contains
`'='`, and the left-to-right `'('`/`')'` counter never goes negative and
ends at zero; `confidence` is the fraction of passed checks; and on
`"(a=b"` it reports `well_formed = false` and `valid = false`. -/
theorem c5_theorem_checker :
    (∀ (data : Msg) (e : Equation) (now : String) (res : Msg),
        data.equation = some e → check_theorem data now = Except.ok res →
        res.checks = some (is_well_formed e, true, true)
        ∧ res.valid = some (is_well_formed e)
        ∧ res.confidence = some ((((is_well_formed e).toNat + 2 : ℕ) : ℚ) / 3))
    ∧ (∀ e : Equation,
        is_well_formed e = true ↔
          (e ≠ [] ∧ '=' ∈ e
            ∧ (∀ p : Equation, p <+: e → ((p.count ')' : ℤ) ≤ (p.count '(' : ℤ)))
            ∧ e.count '(' = e.count ')'))
    ∧ is_well_formed (("(a=b").toList) = false
    ∧ (∀ (data : Msg) (now : String),
        data.equation = some (("(a=b").toList) →
        check_theorem data now
          = Except.ok { data with
              validationType := some theoremType,
              valid := some false,
              confidence := some (2/3),
              checks := some (false, true, true),
              timestamp := some now }) := by
  refine ⟨?_, ?_, by decide, ?_⟩
  · intro data e now res he hres
    rw [check_theorem, he] at hres
    injection hres with hres
    subst hres
    refine ⟨rfl, by simp [check_dimensions], ?_⟩
    simp only [check_dimensions, Bool.toNat_true]
  · intro e
    rw [is_well_formed]
    by_cases hcond : e = [] ∨ ¬ ('=' ∈ e)
    · rw [if_pos hcond]
      constructor
      · intro h
        exact absurd h (by simp)
      · rintro ⟨hne, hmem, -⟩
        rcases hcond with h | h
        · exact absurd h hne
        · exact absurd hmem h
    · rw [if_neg hcond]
      push_neg at hcond
      rw [paren_scan_iff_counts e 0 le_rfl]
      constructor
      · rintro ⟨ha, hb⟩
        refine ⟨hcond.1, hcond.2, fun p hp => by have := ha p hp; omega, by omega⟩
      · rintro ⟨-, -, ha, hb⟩
        exact ⟨fun p hp => by have := ha p hp; omega, by omega⟩
  · intro data now he
    rw [check_theorem, he]
    have hwf : is_well_formed (("(a=b").toList) = false := by decide
    simp only [hwf, check_dimensions, Bool.false_and, Bool.toNat_false, Bool.toNat_true]
    norm_num

/-- Witness for C5 on the concrete equation `"(a=b"`. -/
theorem c5_theorem_checker_witness :
    check_theorem { emptyMsg with equation := some (("(a=b").toList) } ("t")
      = Except.ok { emptyMsg with
          equation := some (("(a=b").toList),
          validationType := some theoremType,
          valid := some false,
          confidence := some (2/3),
          checks := some (false, true, true),
          timestamp := some ("t") } :=
  c5_theorem_checker.2.2.2 { emptyMsg with equation := some (("(a=b").toList) } ("t") rfl

/-- The golden-ratio identity check of validation_worker.py line 169-170
passes: the 57-digit rational value of `PHI` satisfies
`|PHI² - PHI - 1| < 1e-10`. -/
lemma phi_identity_test_true : phi_identity_test = true := by decide

/-- Claim C6: the numerical validator reports `valid` iff all evaluated
identities hold (vacuously true when none apply), `confidence = 1` when
valid and `1/2` otherwise, and on any equation containing `'φ'` the
golden-ratio identity is evaluated and passes, giving `valid = true`,
`confidence = 1`. -/
theorem c6_numerical_validator :
    phi_identity_test = true
    ∧ (∀ (data : Msg) (e : Equation) (now : String) (res : Msg),
        data.equation = some e → validate_numerical data now = Except.ok res →
        res.testResults = some (numerical_tests e)
          ∧ res.valid = some ((numerical_tests e).all (fun t => t.2))
          ∧ res.confidence
              = some (if (numerical_tests e).all (fun t => t.2) then (1 : ℚ) else 1/2))
    ∧ (∀ (data : Msg) (e : Equation) (now : String) (res : Msg),
        data.equation = some e → 'φ' ∈ e →
        validate_numerical data now = Except.ok res →
        res.testResults = some [(("phi_identity"), true)]
        ∧ res.valid = some true ∧ res.confidence = some 1) := by
  have hval : ∀ (data : Msg) (e : Equation) (now : String),
      data.equation = some e →
      validate_numerical data now
        = Except.ok { data with
            validationType := some numericalType,
            valid := some (numerical_valid (numerical_tests e)),
            confidence := some (if numerical_valid (numerical_tests e) then (1 : ℚ) else 1/2),
            precision := some ("50"),
            testResults := some (numerical_tests e),
            timestamp := some now } := by
    intro data e now he
    rw [validate_numerical, he]
  have hvalid_all : ∀ ts : List (String × Bool),
      numerical_valid ts = ts.all (fun t => t.2) := by
    intro ts
    rw [numerical_valid]
    by_cases h : ts = []
    · subst h
      rfl
    · rw [if_neg h]
  have htests_phi : ∀ e : Equation, 'φ' ∈ e →
      numerical_tests e = [(("phi_identity"), true)] := by
    intro e hphi
    have hmem : e.contains 'φ' = true := by
      show List.elem 'φ' e = true
      rw [List.elem_eq_mem]
      exact decide_eq_true hphi
    rw [numerical_tests, if_pos (by rw [hmem, Bool.true_or]), phi_identity_test_true]
  refine ⟨phi_identity_test_true, ?_, ?_⟩
  · intro data e now res he hres
    rw [hval data e now he] at hres
    injection hres with hres
    subst hres
    exact ⟨rfl, by rw [hvalid_all], by rw [hvalid_all]⟩
  · intro data e now res he hphi hres
    rw [hval data e now he] at hres
    injection hres with hres
    subst hres
    refine ⟨by rw [htests_phi e hphi], ?_, ?_⟩
    · rw [hvalid_all, htests_phi e hphi]
      rfl
    · rw [hvalid_all, htests_phi e hphi]
      rfl

/-- The numerical verdict on the one-character equation `"φ"`. -/
def numericalPhiResult : Msg :=
  { emptyMsg with
    equation := some (("φ").toList),
    confidence := some 1,
    validationType := some numericalType,
    valid := some true,
    testResults := some [(("phi_identity"), true)],
    precision := some ("50"),
    timestamp := some ("t") }

/-- Witness for C6 on the concrete equation `"φ"`. -/
theorem c6_numerical_validator_witness :
    numericalPhiResult.testResults = some [(("phi_identity"), true)]
    ∧ numericalPhiResult.valid = some true ∧ numericalPhiResult.confidence = some 1 :=
  c6_numerical_validator.2.2 { emptyMsg with equation := some (("φ").toList) }
    (("φ").toList) ("t") numericalPhiResult rfl (by decide) rfl

/-- Claim C7: the symbolic verifier returns `valid = true, confidence = 0.9`
exactly when the equation contains the separator `'='`, else
`valid = false, confidence = 0`, and the verdict computation is total (it
never propagates an exception once the equation string is in hand). -/
theorem c7_symbolic_verifier :
    (∀ (data : Msg) (e : Equation) (now : String),
        data.equation = some e →
        verify_symbolic data now
          = Except.ok { data with
              validationType := some symbolicType,
              valid := some (decide ('=' ∈ e)),
              confidence := some (if '=' ∈ e then (9 : ℚ)/10 else 0),
              symbolicForm := some e,
              timestamp := some now })
    ∧ (∀ (data : Msg) (e : Equation) (now : String) (res : Msg),
        data.equation = some e → verify_symbolic data now = Except.ok res →
        ('=' ∈ e → res.valid = some true ∧ res.confidence = some (9/10))
          ∧ ('=' ∉ e → res.valid = some false ∧ res.confidence = some 0)) := by
  constructor
  · intro data e now he
    rw [verify_symbolic, he]
  · intro data e now res he hres
    rw [verify_symbolic, he] at hres
    injection hres with hres
    subst hres
    constructor
    · intro hmem
      simp [hmem]
    · intro hmem
      simp [hmem]

/-- Witness for C7 on the concrete equation `"x = 1"`. -/
theorem c7_symbolic_verifier_witness :
    verify_symbolic { emptyMsg with equation := some (("x = 1").toList) } ("t")
      = Except.ok { emptyMsg with
          equation := some (("x = 1").toList),
          validationType := some symbolicType,
          valid := some (decide ('=' ∈ (("x = 1").toList))),
          confidence := some (if '=' ∈ (("x = 1").toList) then (9 : ℚ)/10 else 0),
          symbolicForm := some (("x = 1").toList),
          timestamp := some ("t") } :=
  c7_symbolic_verifier.1 { emptyMsg with equation := some (("x = 1").toList) }
    (("x = 1").toList) ("t") rfl

/-- Every run of the discovery handler either negatively acknowledges, or
publishes the enriched result and then positively acknowledges. -/
lemma process_discovery_nack_or_publish (wt : String) (body : Option Msg) (now : String)
    (r coh : ℚ) :
    process_discovery wt body now r coh = [BrokerOp.nack]
    ∨ ∃ key res, process_discovery wt body now r coh
        = [BrokerOp.publish key res, BrokerOp.ack] := by
  cases body with
  | none => exact Or.inl rfl
  | some data =>
    cases hd : data.equation with
    | none => exact Or.inl (by simp [process_discovery, hd])
    | some e =>
      by_cases hg : topology_gate_rejects e = true
      · exact Or.inl (by simp [process_discovery, hd, hg])
      · rw [Bool.not_eq_true] at hg
        cases hdisp : dispatch_discovery wt data now r coh with
        | error u => exact Or.inl (by simp [process_discovery, hd, hg, hdisp])
        | ok result =>
          cases hupd : update_shared_state result with
          | error u => exact Or.inl (by simp [process_discovery, hd, hg, hdisp, hupd])
          | ok u =>
            cases hroute : route_key result with
            | error u2 =>
              exact Or.inl (by simp [process_discovery, hd, hg, hdisp, hupd, hroute])
            | ok key =>
              exact Or.inr ⟨key, result,
                by simp [process_discovery, hd, hg, hdisp, hupd, hroute]⟩

/-- When the discovery handler ends in a publish-then-ack, every stage of
the pipeline succeeded: the body parsed, the equation key was present, the
gate admitted it, enrichment produced the published result, the shared
state update succeeded, and the routing key came from the result's phase. -/
lemma process_discovery_publish_inv (wt : String) (body : Option Msg) (now : String)
    (r coh : ℚ) (key : String) (res : Msg)
    (h : process_discovery wt body now r coh = [BrokerOp.publish key res, BrokerOp.ack]) :
    ∃ data e, body = some data ∧ data.equation = some e
      ∧ topology_gate_rejects e = false
      ∧ dispatch_discovery wt data now r coh = Except.ok res
      ∧ update_shared_state res = Except.ok ()
      ∧ route_key res = Except.ok key := by
  cases body with
  | none => simp [process_discovery] at h
  | some data =>
    cases hd : data.equation with
    | none => simp [process_discovery, hd] at h
    | some e =>
      by_cases hg : topology_gate_rejects e = true
      · simp [process_discovery, hd, hg] at h
      · rw [Bool.not_eq_true] at hg
        cases hdisp : dispatch_discovery wt data now r coh with
        | error u => simp [process_discovery, hd, hg, hdisp] at h
        | ok result =>
          cases hupd : update_shared_state result with
          | error u => simp [process_discovery, hd, hg, hdisp, hupd] at h
          | ok u =>
            cases hroute : route_key result with
            | error u2 => simp [process_discovery, hd, hg, hdisp, hupd, hroute] at h
            | ok key2 =>
              simp [process_discovery, hd, hg, hdisp, hupd, hroute] at h
              obtain ⟨hkey, hres⟩ := h
              subst hkey
              subst hres
              exact ⟨data, e, rfl, hd, hg, hdisp, hupd, hroute⟩

/-- Every run of the validation handler either negatively acknowledges with
the table untouched, or completes the whole verdict/update/persist sequence
and then positively acknowledges. -/
lemma process_validation_nack_or_ack (wt : String) (db : DB) (body : Option Msg)
    (now : String) :
    process_validation wt db body now = ([BrokerOp.nack], db)
    ∨ ∃ data res v, body = some data
        ∧ dispatch_validation wt data now = Except.ok res
        ∧ update_validation_state res = Except.ok ()
        ∧ res.valid = some v
        ∧ process_validation wt db body now
            = ([BrokerOp.ack], if v then store_validated_equation db res else db) := by
  cases body with
  | none => exact Or.inl rfl
  | some data =>
    cases hdisp : dispatch_validation wt data now with
    | error u => exact Or.inl (by simp [process_validation, hdisp])
    | ok result =>
      cases hupd : update_validation_state result with
      | error u => exact Or.inl (by simp [process_validation, hdisp, hupd])
      | ok u =>
        cases hv : result.valid with
        | none => exact Or.inl (by simp [process_validation, hdisp, hupd, hv])
        | some v =>
          exact Or.inr ⟨data, result, v, rfl, hdisp, hupd, hv,
            by simp [process_validation, hdisp, hupd, hv]⟩

/-- Claim C4: each handler performs exactly one acknowledgment per
delivery; the discovery handler acks only after a successful republish and
the validation handler only after the verdict-update-persist sequence; a
parse failure of the body (`body = none`) is converted to a negative
acknowledgment in both workers rather than an escaping exception. -/
theorem c4_single_acknowledgment :
    (∀ (wt : String) (body : Option Msg) (now : String) (r coh : ℚ),
        process_discovery wt body now r coh = [BrokerOp.nack]
        ∨ ∃ key res, process_discovery wt body now r coh
            = [BrokerOp.publish key res, BrokerOp.ack])
    ∧ (∀ (wt : String) (body : Option Msg) (now : String) (r coh : ℚ),
        (process_discovery wt body now r coh).countP ack_or_nack = 1)
    ∧ (∀ (wt : String) (now : String) (r coh : ℚ),
        process_discovery wt none now r coh = [BrokerOp.nack])
    ∧ (∀ (wt : String) (db : DB) (body : Option Msg) (now : String),
        process_validation wt db body now = ([BrokerOp.nack], db)
        ∨ ∃ data res v, body = some data
            ∧ dispatch_validation wt data now = Except.ok res
            ∧ update_validation_state res = Except.ok ()
            ∧ res.valid = some v
            ∧ process_validation wt db body now
                = ([BrokerOp.ack], if v then store_validated_equation db res else db))
    ∧ (∀ (wt : String) (db : DB) (body : Option Msg) (now : String),
        ((process_validation wt db body now).1).countP ack_or_nack = 1)
    ∧ (∀ (wt : String) (db : DB) (now : String),
        process_validation wt db none now = ([BrokerOp.nack], db)) := by
  refine ⟨process_discovery_nack_or_publish, ?_, fun wt now r coh => rfl,
    process_validation_nack_or_ack, ?_, fun wt db now => rfl⟩
  · intro wt body now r coh
    rcases process_discovery_nack_or_publish wt body now r coh with h | ⟨key, res, h⟩ <;>
      rw [h] <;> rfl
  · intro wt db body now
    rcases process_validation_nack_or_ack wt db body now with h | ⟨data, res, v, -, -, -, -, h⟩ <;>
      rw [h] <;> rfl

/-- A concrete gate-admissible input message for the present-phase worker. -/
def msgGenInput : Msg :=
  { emptyMsg with equation := some (("((x))").toList), timestamp := some ("t0") }

/-- The enriched statement the present-phase worker republishes for
`msgGenInput` with random draw `0`. -/
def msgGenOutput : Msg := generate_equations equationGeneratorRole msgGenInput 0

/-- The present-phase worker's full run on `msgGenInput`: the gate admits
(`χ = 1 - 1 + 0 = 0`), enrichment succeeds, and the result is published
under `discovery.future.optimize` and positively acknowledged. -/
lemma process_discovery_msgGenInput :
    process_discovery equationGeneratorRole (some msgGenInput) ("t1") 0 0
      = [BrokerOp.publish routeFutureOptimize msgGenOutput, BrokerOp.ack] := by
  have hd : msgGenInput.equation = some (("((x))").toList) := rfl
  have hg : topology_gate_rejects (['(', '(', 'x', ')', ')'] : List Char) = false := by decide
  have hdisp : dispatch_discovery equationGeneratorRole msgGenInput ("t1") 0 0
      = Except.ok msgGenOutput := rfl
  have hcmp : PSI < msgGenOutput.confidence.getD 0 := by
    norm_num [msgGenOutput, generate_equations, msgGenInput, emptyMsg, PSI]
  have hupd : update_shared_state msgGenOutput = Except.ok () := by
    rw [update_shared_state, if_pos hcmp]
    rfl
  have hroute : route_key msgGenOutput = Except.ok routeFutureOptimize := rfl
  simp [process_discovery, hd, hg, hdisp, hupd, hroute]

/-- Claim C3 counterexample: the present-phase worker (equation_generator)
successfully processes `msgGenInput` and republishes, but the republished
statement carries `phase = "present"`, not `phase = "future"` as the claim
states. -/
theorem c3_counterexample_present_phase :
    process_discovery equationGeneratorRole (some msgGenInput) ("t1") 0 0
      = [BrokerOp.publish routeFutureOptimize msgGenOutput, BrokerOp.ack]
    ∧ msgGenOutput.phase = some presentPhase
    ∧ ¬ (msgGenOutput.phase = some futurePhase) :=
  ⟨process_discovery_msgGenInput, rfl, by decide⟩

/-- Claim C3 (amended): the statement republished by the present-phase
worker carries `phase = "present"` (the worker's own phase, not an advanced
one), is published under the routing key `discovery.future.optimize`, and
that key never matches the past-bound worker's binding pattern
`discovery.past.*`, so the republished statement is never re-consumed by a
past-bound worker. -/
theorem c3_present_phase_routing :
    (∀ (data : Msg) (r : ℚ),
        (generate_equations equationGeneratorRole data r).phase = some presentPhase)
    ∧ (∀ (body : Option Msg) (now : String) (r coh : ℚ) (key : String) (res : Msg),
        process_discovery equationGeneratorRole body now r coh
          = [BrokerOp.publish key res, BrokerOp.ack] →
        res.phase = some presentPhase ∧ key = routeFutureOptimize
          ∧ topic_match (key_words (discovery_binding patternRecognizerRole)) (key_words key)
            = false)
    ∧ discovery_binding patternRecognizerRole = ("discovery.past.*")
    ∧ topic_match (key_words ("discovery.past.*")) (key_words routeFutureOptimize)
        = false := by
  refine ⟨fun data r => rfl, ?_, by decide, by decide⟩
  intro body now r coh key res h
  obtain ⟨data, e, hbody, he, hg, hdisp, hupd, hroute⟩ :=
    process_discovery_publish_inv equationGeneratorRole body now r coh key res h
  rw [dispatch_discovery, if_neg (by decide), if_pos rfl] at hdisp
  injection hdisp with hdisp
  have hphase : res.phase = some presentPhase := by
    rw [← hdisp]
    rfl
  simp only [route_key, hphase] at hroute
  simp at hroute
  subst hroute
  exact ⟨hphase, rfl, by decide⟩

/-- Witness for the amended C3 at the concrete input `msgGenInput`. -/
theorem c3_present_phase_routing_witness :
    msgGenOutput.phase = some presentPhase
    ∧ routeFutureOptimize = routeFutureOptimize
    ∧ topic_match (key_words (discovery_binding patternRecognizerRole))
        (key_words routeFutureOptimize) = false :=
  c3_present_phase_routing.2.1 (some msgGenInput) ("t1") 0 0
    routeFutureOptimize msgGenOutput process_discovery_msgGenInput

/-- A concrete input message whose incoming patterns are non-empty. -/
def msgPatInput : Msg :=
  { emptyMsg with equation := some (("x = y").toList), patterns := some [("integral")] }

/-- Claim C9 counterexample: the pattern recognizer replaces the incoming
patterns `["integral"]` with the freshly detected (here empty) list, so the
output patterns do not contain the input tag. -/
theorem c9_counterexample_patterns_dropped :
    recognize_patterns patternRecognizerRole msgPatInput ("t1")
      = Except.ok { msgPatInput with
          patterns := some [],
          phase := some pastPhase,
          timestamp := some ("t1"),
          worker := some patternRecognizerRole }
    ∧ msgPatInput.patterns = some [("integral")]
    ∧ ¬ (("integral" : String) ∈ ([] : List String)) :=
  ⟨rfl, rfl, by decide⟩

/-- Claim C9 (amended): the pattern recognizer's output replaces the
patterns field with the tags freshly detected from the equation text
(possibly dropping incoming tags) and overwrites `phase`, `timestamp` and
`worker`; every other field of the input statement is preserved in the
cloned-and-extended output. -/
theorem c9_patterns_replaced :
    ∀ (wt : String) (data : Msg) (now : String) (e : Equation),
      data.equation = some e →
      recognize_patterns wt data now
        = Except.ok { data with
            patterns := some (detected_patterns e),
            phase := some pastPhase,
            timestamp := some now,
            worker := some wt } := by
  intro wt data now e he
  rw [recognize_patterns, he]

/-- Witness for the amended C9 at the concrete input `msgPatInput`. -/
theorem c9_patterns_replaced_witness :
    recognize_patterns phaseOptimizerRole msgPatInput ("t2")
      = Except.ok { msgPatInput with
          patterns := some (detected_patterns (("x = y").toList)),
          phase := some pastPhase,
          timestamp := some ("t2"),
          worker := some phaseOptimizerRole } :=
  c9_patterns_replaced phaseOptimizerRole msgPatInput ("t2") (("x = y").toList) rfl

/-- Claim C10: a worker constructed with an unrecognized role string never
positively acknowledges: the discovery handler negatively acknowledges
every delivery (the role dispatch has no `else` branch, so the undefined
`result` raises and is converted to a nack), such a discovery worker is
bound to the present-phase routing pattern by default, and the validation
handler likewise nacks every delivery leaving the table unchanged. -/
theorem c10_unknown_role_nacks :
    (∀ wt : String,
        wt ≠ patternRecognizerRole → wt ≠ equationGeneratorRole → wt ≠ phaseOptimizerRole →
        (∀ (body : Option Msg) (now : String) (r coh : ℚ),
            process_discovery wt body now r coh = [BrokerOp.nack])
        ∧ determine_phase wt = presentPhase
        ∧ discovery_binding wt = ("discovery.present.*"))
    ∧ (∀ wt : String,
        wt ≠ theoremCheckerRole → wt ≠ numericalValidatorRole → wt ≠ symbolicVerifierRole →
        ∀ (db : DB) (body : Option Msg) (now : String),
          process_validation wt db body now = ([BrokerOp.nack], db)) := by
  constructor
  · intro wt h1 h2 h3
    have hdisp : ∀ (data : Msg) (now : String) (r coh : ℚ),
        dispatch_discovery wt data now r coh = Except.error () := by
      intro data now r coh
      rw [dispatch_discovery, if_neg h1, if_neg h2, if_neg h3]
    have hphase : determine_phase wt = presentPhase := by
      rw [determine_phase, if_neg h1, if_neg h2, if_neg h3]
    refine ⟨?_, hphase, ?_⟩
    · intro body now r coh
      cases body with
      | none => rfl
      | some data =>
        cases hd : data.equation with
        | none => simp [process_discovery, hd]
        | some e =>
          by_cases hg : topology_gate_rejects e = true
          · simp [process_discovery, hd, hg]
          · rw [Bool.not_eq_true] at hg
            simp [process_discovery, hd, hg, hdisp data now r coh]
    · rw [discovery_binding, hphase]
      decide
  · intro wt h1 h2 h3 db body now
    have hdisp : ∀ (data : Msg) (now : String),
        dispatch_validation wt data now = Except.error () := by
      intro data now
      rw [dispatch_validation, if_neg h1, if_neg h2, if_neg h3]
    cases body with
    | none => rfl
    | some data => simp [process_validation, hdisp data now]

/-- Witness for C10 at the concrete role string `"bogus"`. -/
theorem c10_unknown_role_nacks_witness :
    process_discovery ("bogus") none ("t") 0 0 = [BrokerOp.nack]
    ∧ determine_phase ("bogus") = presentPhase
    ∧ process_validation ("bogus") (fun _ => none) none ("t")
        = ([BrokerOp.nack], (fun _ => none : DB)) :=
  ⟨(c10_unknown_role_nacks.1 ("bogus") (by decide) (by decide) (by decide)).1 none ("t") 0 0,
   (c10_unknown_role_nacks.1 ("bogus") (by decide) (by decide) (by decide)).2.1,
   c10_unknown_role_nacks.2 ("bogus") (by decide) (by decide) (by decide)
     (fun _ => none) none ("t")⟩

end PhiPipeline
